import Mathlib

/-!
Shallow embedding of the asic-rs telemetry collector core:
the JSON value model, the two extractor functions (`get_by_key`,
`get_by_pointer`), the `DataCollector` engine from `src/miners/data.rs`,
and the ESPMiner backend from `src/miners/backends/espminer.rs`.
Machine floats (`f64`) are modelled as rationals; `u16` casts are kept
as reduction modulo 2^16.
-/

/-- JSON values, mirroring `serde_json::Value`. Numbers are modelled as
rationals. Objects are association lists with lookup at the first match. -/
inductive Value where
  | null : Value
  | bool (b : Bool) : Value
  | num (q : ℚ) : Value
  | str (s : String) : Value
  | arr (items : List Value) : Value
  | obj (entries : List (String × Value)) : Value

/-- Object-key lookup, mirroring `Value::get` with a string index:
for an object it looks the key up, for anything else it is `None`. -/
def Value.getKey : Value → String → Option Value
  | .obj entries, k => entries.lookup k
  | _, _ => none

/-- Rust's `str::starts_with(c)` for a single character, embedded
structurally on the character list so that it evaluates. -/
def startsWithChar (c : Char) (s : String) : Bool :=
  match s.data with
  | d :: _ => d == c
  | [] => false

/-- Decimal digit accumulation of Rust's `str::parse::<usize>()` (indices
are modelled as unbounded naturals): every character must be a digit. -/
def parseDigits : Nat → List Char → Option Nat
  | acc, [] => some acc
  | acc, c :: rest =>
    if c.isDigit then parseDigits (acc * 10 + (c.toNat - 48)) rest else none

/-- `serde_json`'s `parse_index`: an array index token must be a plain
decimal numeral with no `+` sign and no leading zero. -/
def parse_index (s : String) : Option Nat :=
  if startsWithChar '+' s ∨ (startsWithChar '0' s ∧ s.data.length ≠ 1) then
    none
  else
    match s.data with
    | [] => none
    | ds => parseDigits 0 ds

/-- One descent step of pointer resolution: objects are entered by key,
arrays by parsed index, anything else fails. -/
def Value.pointerStep : Value → String → Option Value
  | .obj entries, tok => entries.lookup tok
  | .arr items, tok => (parse_index tok).bind items.get?
  | _, _ => none

/-- Resolve a list of already-unescaped pointer tokens left to right,
failing as soon as one step fails (serde's `try_fold`). -/
def Value.resolveTokens : Value → List String → Option Value
  | v, [] => some v
  | v, tok :: rest => (v.pointerStep tok).bind (Value.resolveTokens · rest)

/-- Rust's `str::replace("~1", "/")`: left-to-right, non-overlapping. -/
def unescape1 : List Char → List Char
  | '~' :: '1' :: rest => '/' :: unescape1 rest
  | c :: rest => c :: unescape1 rest
  | [] => []

/-- Rust's `str::replace("~0", "~")`: left-to-right, non-overlapping. -/
def unescape0 : List Char → List Char
  | '~' :: '0' :: rest => '~' :: unescape0 rest
  | c :: rest => c :: unescape0 rest
  | [] => []

/-- Rust's `str::split(c)`: splitting an empty string yields one empty
piece, and every separator starts a new piece. -/
def splitOnChar (sep : Char) : List Char → List (List Char)
  | [] => [[]]
  | c :: rest =>
    if c = sep then [] :: splitOnChar sep rest
    else
      match splitOnChar sep rest with
      | [] => [[c]]
      | t :: ts => (c :: t) :: ts

/-- Token list of a pointer string: split on `/`, drop the leading empty
segment, unescape `~1` then `~0` in each token. -/
def pointerTokens (p : String) : List String :=
  ((splitOnChar '/' p.data).drop 1).map
    fun t => String.mk (unescape0 (unescape1 t))

/-- `serde_json`'s `Value::pointer`: empty pointer returns the whole
document, a pointer not starting with `/` resolves to nothing, otherwise
the unescaped tokens are resolved in order. -/
def Value.pointer (v : Value) (p : String) : Option Value :=
  if p = "" then some v
  else if ¬ startsWithChar '/' p then none
  else v.resolveTokens (pointerTokens p)

/-- `get_by_key` from `src/miners/data.rs`: flat lookup of an optional key. -/
def get_by_key (data : Value) (key : Option String) : Option Value :=
  key.bind data.getKey

/-- `get_by_pointer` from `src/miners/data.rs`: JSON-pointer lookup of an
optional path. -/
def get_by_pointer (data : Value) (key : Option String) : Option Value :=
  key.bind data.pointer

/-- The `DataField` enumeration from `src/miners/data.rs`, in declaration
order. -/
inductive DataField where
  | SchemaVersion
  | Timestamp
  | Ip
  | Mac
  | DeviceInfo
  | SerialNumber
  | Hostname
  | ApiVersion
  | FirmwareVersion
  | ControlBoardVersion
  | ExpectedHashboards
  | Hashboards
  | Hashrate
  | ExpectedChips
  | TotalChips
  | ExpectedFans
  | Fans
  | PsuFans
  | AverageTemperature
  | FluidTemperature
  | Wattage
  | WattageLimit
  | Efficiency
  | LightFlashing
  | Messages
  | Uptime
  | IsMining
  | Pools
deriving DecidableEq, Repr

/-- Every `DataField` variant in declaration order (the `EnumIter` order
used by `collect_all`). -/
def allDataFields : List DataField :=
  [.SchemaVersion, .Timestamp, .Ip, .Mac, .DeviceInfo, .SerialNumber,
   .Hostname, .ApiVersion, .FirmwareVersion, .ControlBoardVersion,
   .ExpectedHashboards, .Hashboards, .Hashrate, .ExpectedChips,
   .TotalChips, .ExpectedFans, .Fans, .PsuFans, .AverageTemperature,
   .FluidTemperature, .Wattage, .WattageLimit, .Efficiency,
   .LightFlashing, .Messages, .Uptime, .IsMining, .Pools]

/-- `DataExtractor`: an extractor function together with an optional
key or pointer, as in `src/miners/data.rs`. -/
structure DataExtractor where
  func : Value → Option String → Option Value
  key : Option String

/-- `DataLocation`: a command string paired with the extractor that
parses its response. -/
def DataLocation := String × DataExtractor

/-- The API client contract (`ApiClient::send_command`): one command in,
a raw response or a failure reason out. The transport itself is an
external collaborator, so it is a parameter everywhere. -/
def ApiOutcome := String → Except String Value

namespace DataCollector

/-- `DataCollector::get_required_commands`: the deduplicated set of
command strings referenced by the locations of the requested fields.
The Rust code collects into a `HashSet`; the iteration order of the set
is immaterial because each command is keyed separately in the cache, so
the set is modelled as the first-occurrence deduplicated list. -/
def get_required_commands (locs : DataField → List DataLocation)
    (fields : List DataField) : List String :=
  ((fields.flatMap fun f => (locs f).map Prod.fst)).dedup

/-- The command-execution phase of `collect`: invoke the API client once
per listed command; cache the response on success, cache nothing on
failure. -/
def runCommands (api : ApiOutcome) (cmds : List String) :
    List (String × Value) :=
  cmds.filterMap fun cmd =>
    match api cmd with
    | .ok v => some (cmd, v)
    | .error _ => none

/-- The candidate-evaluation step of `extract_field`: a location yields a
value when its command response is cached and the extractor succeeds
on it. -/
def evalLoc (cache : List (String × Value)) (loc : DataLocation) :
    Option Value :=
  (cache.lookup loc.1).bind fun resp => loc.2.func resp loc.2.key

/-- Walk a location list in order and return the first successful
evaluation (the loop body of `extract_field`). -/
def extractFirst (cache : List (String × Value)) :
    List DataLocation → Option Value
  | [] => none
  | loc :: rest =>
    match evalLoc cache loc with
    | some v => some v
    | none => extractFirst cache rest

/-- `DataCollector::extract_field`: try the field's locations in the
backend's declared order against the cache. -/
def extract_field (locs : DataField → List DataLocation)
    (cache : List (String × Value)) (f : DataField) : Option Value :=
  extractFirst cache (locs f)

/-- `DataCollector::collect` starting from an explicit cache state (the
`cache` field of the collector struct): execute each required command
once, then extract every requested field from the updated cache.
Fresh responses are listed before the prior cache so that lookup sees
them first, matching `HashMap::insert` overwrite semantics.
Returns the result mapping together with the final cache. -/
def collectFrom (locs : DataField → List DataLocation) (api : ApiOutcome)
    (cache0 : List (String × Value)) (fields : List DataField) :
    List (DataField × Value) × List (String × Value) :=
  let cache := runCommands api (get_required_commands locs fields) ++ cache0
  (fields.filterMap fun f => (extract_field locs cache f).map ((f, ·)), cache)

/-- `DataCollector::new` followed by `collect`: the collector is created
with an empty cache, so a collection call starts from the fresh cache. -/
def collect (locs : DataField → List DataLocation) (api : ApiOutcome)
    (fields : List DataField) : List (DataField × Value) :=
  (collectFrom locs api [] fields).1

/-- The cache as populated by one `collect` call that started fresh. -/
def cacheOf (locs : DataField → List DataLocation) (api : ApiOutcome)
    (fields : List DataField) : List (String × Value) :=
  runCommands api (get_required_commands locs fields)

/-- `DataCollector::collect_all`: collect every enumerated field. -/
def collect_all (locs : DataField → List DataLocation) (api : ApiOutcome) :
    List (DataField × Value) :=
  collect locs api allDataFields

end DataCollector

/-! ## ESPMiner backend: location table (`espminer.rs::get_locations`) -/

/-- The `system/info` route constant. -/
def SYSTEM_INFO_CMD : String := "system/info"

/-- The `system/asic` route constant. -/
def ASIC_INFO_CMD : String := "system/asic"

namespace ESPMiner

/-- `ESPMiner::get_locations`, translated clause by clause; every field
not matched explicitly falls through to the empty table. -/
def get_locations : DataField → List DataLocation
  | .Mac => [(SYSTEM_INFO_CMD, ⟨get_by_key, some "macAddr"⟩)]
  | .Hostname => [(SYSTEM_INFO_CMD, ⟨get_by_key, some "hostname"⟩)]
  | .FirmwareVersion => [(SYSTEM_INFO_CMD, ⟨get_by_key, some "version"⟩)]
  | .ControlBoardVersion =>
      [(SYSTEM_INFO_CMD, ⟨get_by_key, some "boardVersion"⟩)]
  | .Hashboards => [(SYSTEM_INFO_CMD, ⟨get_by_pointer, some ""⟩)]
  | .Hashrate => [(SYSTEM_INFO_CMD, ⟨get_by_key, some "hashRate"⟩)]
  | .TotalChips =>
      [(SYSTEM_INFO_CMD, ⟨get_by_key, some "asicCount"⟩),
       (ASIC_INFO_CMD, ⟨get_by_key, some "asicCount"⟩)]
  | .Fans => [(SYSTEM_INFO_CMD, ⟨get_by_key, some "fanrpm"⟩)]
  | .AverageTemperature => [(SYSTEM_INFO_CMD, ⟨get_by_key, some "temp"⟩)]
  | .Wattage => [(SYSTEM_INFO_CMD, ⟨get_by_key, some "power"⟩)]
  | .Uptime => [(SYSTEM_INFO_CMD, ⟨get_by_key, some "uptimeSeconds"⟩)]
  | .Pools => [(SYSTEM_INFO_CMD, ⟨get_by_pointer, some ""⟩)]
  | _ => []

end ESPMiner

/-! ## Domain model (`src/data/*.rs`), with `f64` as `ℚ`

The `measurements` crate types are modelled as single-field wrappers
around the numeric value their constructor receives. -/

/-- `measurements::Power`, built from watts. -/
structure Power where
  watts : ℚ
deriving DecidableEq, Repr

/-- `Power::from_watts`. -/
def Power.from_watts (w : ℚ) : Power := ⟨w⟩

/-- `Power::as_watts`. -/
def Power.as_watts (p : Power) : ℚ := p.watts

/-- `measurements::Temperature`, built from degrees Celsius. -/
structure Temperature where
  celsius : ℚ
deriving DecidableEq, Repr

/-- `Temperature::from_celsius`. -/
def Temperature.from_celsius (c : ℚ) : Temperature := ⟨c⟩

/-- `measurements::Voltage`, built from millivolts. -/
structure Voltage where
  millivolts : ℚ
deriving DecidableEq, Repr

/-- `Voltage::from_millivolts`. -/
def Voltage.from_millivolts (mv : ℚ) : Voltage := ⟨mv⟩

/-- `measurements::Frequency`, built from megahertz. -/
structure Frequency where
  megahertz : ℚ
deriving DecidableEq, Repr

/-- `Frequency::from_megahertz`. -/
def Frequency.from_megahertz (mhz : ℚ) : Frequency := ⟨mhz⟩

/-- `measurements::AngularVelocity`, built from revolutions per minute. -/
structure AngularVelocity where
  rpm : ℚ
deriving DecidableEq, Repr

/-- `AngularVelocity::from_rpm`. -/
def AngularVelocity.from_rpm (r : ℚ) : AngularVelocity := ⟨r⟩

/-- `HashRateUnit` from `src/data/hashrate.rs`. -/
inductive HashRateUnit where
  | Hash | KiloHash | MegaHash | GigaHash | TeraHash
  | PetaHash | ExaHash | ZettaHash | YottaHash
deriving DecidableEq, Repr

/-- `HashRate` from `src/data/hashrate.rs`. -/
structure HashRate where
  value : ℚ
  unit : HashRateUnit
  algo : String
deriving DecidableEq, Repr

/-- `FanData` from `src/data/fan.rs`. -/
structure FanData where
  position : Int
  rpm : AngularVelocity
deriving DecidableEq, Repr

/-- `ChipData` from `src/data/board.rs`. -/
structure ChipData where
  position : Nat
  hashrate : Option HashRate
  temperature : Option Temperature
  voltage : Option Voltage
  frequency : Option Frequency
  tuned : Option Bool
  working : Option Bool
deriving DecidableEq, Repr

/-- `BoardData` from `src/data/board.rs`. -/
structure BoardData where
  position : Nat
  hashrate : Option HashRate
  expected_hashrate : Option HashRate
  board_temperature : Option Temperature
  intake_temperature : Option Temperature
  outlet_temperature : Option Temperature
  expected_chips : Option Nat
  working_chips : Option Nat
  serial_number : Option String
  chips : List ChipData
  voltage : Option Voltage
  frequency : Option Frequency
  tuned : Option Bool
  active : Option Bool
deriving DecidableEq, Repr

/-- `MessageSeverity` from `src/data/message.rs`. -/
inductive MessageSeverity where
  | Error | Warning | Info
deriving DecidableEq, Repr

/-- `MinerMessage` from `src/data/message.rs`. -/
structure MinerMessage where
  timestamp : Nat
  code : Nat
  message : String
  severity : MessageSeverity
deriving DecidableEq, Repr

/-- Modelled from the spec: `src/data/pool.rs` (`PoolScheme`) is not under
`src/`; its variants are reconstructed from the construction sites in
`espminer.rs`. -/
inductive PoolScheme where
  | StratumV1
deriving DecidableEq, Repr

/-- Modelled from the spec: `src/data/pool.rs` (`PoolURL`) is not under
`src/`; its fields are reconstructed from the construction sites in
`espminer.rs`. -/
structure PoolURL where
  scheme : PoolScheme
  host : String
  port : Nat
  pubkey : Option String
deriving DecidableEq, Repr

/-- Modelled from the spec: `src/data/pool.rs` (`PoolData`) is not under
`src/`; its fields are reconstructed from the construction sites in
`espminer.rs`. -/
structure PoolData where
  position : Option Nat
  url : Option PoolURL
  accepted_shares : Option Nat
  rejected_shares : Option Nat
  active : Option Bool
  alive : Option Bool
  user : Option String
deriving DecidableEq, Repr

/-- Modelled from the spec: the `src/data/device` module root is not under
`src/`; `DeviceInfo` is carried opaquely as the identification record the
backend constructs from its own constants. -/
structure DeviceInfo where
  make : String
  model : String
  firmware : String
  algorithm : String
deriving DecidableEq, Repr

/-- Modelled from the spec: the `src/data/device` module root is not under
`src/`; `MinerHardware` carries the per-model expected board, chip and
fan counts used by `espminer.rs`. -/
structure MinerHardware where
  boards : Option Nat
  chips : Option Nat
  fans : Option Nat
deriving DecidableEq, Repr

/-- `MinerData` from `src/data/miner.rs` (the Snapshot aggregate root).
`IpAddr` is carried as a string, `MacAddr` as its parsed string form,
`Duration` as whole seconds. -/
structure MinerData where
  schema_version : String
  timestamp : Nat
  ip : String
  mac : Option String
  device_info : DeviceInfo
  serial_number : Option String
  hostname : Option String
  api_version : Option String
  firmware_version : Option String
  control_board_version : Option String
  expected_hashboards : Option Nat
  hashboards : List BoardData
  hashrate : Option HashRate
  expected_chips : Option Nat
  total_chips : Option Nat
  expected_fans : Option Nat
  fans : List FanData
  psu_fans : List FanData
  average_temperature : Option Temperature
  fluid_temperature : Option Temperature
  wattage : Option Power
  wattage_limit : Option Power
  efficiency : Option ℚ
  light_flashing : Option Bool
  messages : List MinerMessage
  uptime : Option Nat
  is_mining : Bool
  pools : List PoolData

/-! ## Value conversions and the DataExtensions helpers

The `DataExtensions` trait (`extract`, `extract_map`, `extract_map_or`,
`extract_nested`, `extract_nested_map`, `extract_nested_or`) and the
`FromValue` conversions are imported by `espminer.rs` but their module is
not under `src/`; they are modelled from the spec below. -/

/-- `FromValue` for `String`: a JSON string yields its contents. -/
def Value.asString : Value → Option String
  | .str s => some s
  | _ => none

/-- `FromValue` for `f64`: a JSON number yields its value. -/
def Value.asF64 : Value → Option ℚ
  | .num q => some q
  | _ => none

/-- `FromValue` for `u64`: a JSON number yields its value when it is a
non-negative integer. -/
def Value.asU64 : Value → Option Nat
  | .num q => if q.den = 1 ∧ 0 ≤ q.num then some q.num.toNat else none
  | _ => none

/-- `FromValue` for `bool`: a JSON boolean yields its value. -/
def Value.asBool : Value → Option Bool
  | .bool b => some b
  | _ => none

/-- The collected mapping handed from the Collector to the backend. -/
def Collected := List (DataField × Value)

/-- Modelled from the spec: `DataExtensions::extract` is not under `src/`.
Per §4.4 a present raw value is converted to its typed form and an absent
or non-converting one stays absent. -/
def Collected.extract (conv : Value → Option α) (data : Collected)
    (f : DataField) : Option α :=
  (data.lookup f).bind conv

/-- Modelled from the spec: `DataExtensions::extract_map` is not under
`src/`; it converts the field and maps the given function over the
result, staying absent when the field is absent. -/
def Collected.extract_map (conv : Value → Option α) (data : Collected)
    (f : DataField) (g : α → β) : Option β :=
  (data.extract conv f).map g

/-- Modelled from the spec: `DataExtensions::extract_map_or` is not under
`src/`; per the call-site comment in `espminer.rs` it supplies the given
default value when the field is missing. -/
def Collected.extract_map_or (conv : Value → Option α) (data : Collected)
    (f : DataField) (dflt : β) (g : α → β) : β :=
  (data.extract_map conv f g).getD dflt

/-- Modelled from the spec: `DataExtensions::extract_nested` is not under
`src/`; it looks the given key up inside the field's raw response value
and converts the result, staying absent when either step fails. -/
def Collected.extract_nested (conv : Value → Option α) (data : Collected)
    (f : DataField) (key : String) : Option α :=
  ((data.lookup f).bind (Value.getKey · key)).bind conv

/-- Modelled from the spec: `DataExtensions::extract_nested_map` is not
under `src/`; nested extraction followed by a map. -/
def Collected.extract_nested_map (conv : Value → Option α) (data : Collected)
    (f : DataField) (key : String) (g : α → β) : Option β :=
  (data.extract_nested conv f key).map g

/-- Modelled from the spec: `DataExtensions::extract_nested_or` is not
under `src/`; per the call-site comments in `espminer.rs` it supplies the
given default value when nested extraction fails. -/
def Collected.extract_nested_or (conv : Value → Option α) (data : Collected)
    (f : DataField) (key : String) (dflt : α) : α :=
  (data.extract_nested conv f key).getD dflt

/-! ## `ESPMiner::get_data` (`src/miners/backends/espminer.rs`)

Ambient facts the Rust method reads from its environment are passed as
explicit parameters: the device address `ip`, the crate version
`schemaVersion` (`env!("CARGO_PKG_VERSION")`), the wall-clock `timestamp`
(`SystemTime::now`), the constructed `DeviceInfo`, the per-model
`MinerHardware` table, the external `macaddr` crate's parser `macParse`
(`MacAddr::from_str(..).ok()`), and the API client outcome `api`. -/

namespace ESPMiner

/-- `ESPMiner::get_data`, translated statement by statement from
`espminer.rs`. -/
def get_data (ip schemaVersion : String) (timestamp : Nat)
    (device_info : DeviceInfo) (hw : MinerHardware)
    (macParse : String → Option String) (api : ApiOutcome) : MinerData :=
  let data : Collected := DataCollector.collect_all get_locations api
  let mac := (data.extract Value.asString .Mac).bind macParse
  let hostname := data.extract Value.asString .Hostname
  let api_version := data.extract Value.asString .ApiVersion
  let firmware_version := data.extract Value.asString .FirmwareVersion
  let control_board_version := data.extract Value.asString .ControlBoardVersion
  let hashrate := data.extract_map Value.asF64 .Hashrate fun f =>
    HashRate.mk f HashRateUnit.GigaHash "SHA256"
  let total_chips := data.extract_map Value.asU64 .TotalChips fun u => u % 65536
  let wattage := data.extract_map Value.asF64 .Wattage Power.from_watts
  let average_temperature :=
    data.extract_map Value.asF64 .AverageTemperature Temperature.from_celsius
  let efficiency :=
    match hashrate, wattage with
    | some hr, some w => some (w.as_watts / (hr.value / 1000))
    | _, _ => none
  let fans := data.extract_map_or Value.asF64 .Fans [] fun f =>
    [FanData.mk 0 (AngularVelocity.from_rpm f)]
  let uptime := data.extract_map Value.asU64 .Uptime id
  let is_mining := hashrate.elim false fun hr => decide (hr.value > 0)
  let hashboards :=
    let board_voltage := data.extract_nested_map Value.asF64 .Hashboards
      "voltage" Voltage.from_millivolts
    let board_temperature := data.extract_nested_map Value.asF64 .Hashboards
      "vrTemp" Temperature.from_celsius
    let board_frequency := data.extract_nested_map Value.asF64 .Hashboards
      "frequency" Frequency.from_megahertz
    let chip_temperature := data.extract_nested_map Value.asF64 .Hashboards
      "temp" Temperature.from_celsius
    let expected_hashrate := some (HashRate.mk
      (data.extract_nested_or Value.asF64 .Hashboards "expectedHashrate" 0)
      HashRateUnit.GigaHash "SHA256")
    let board_hashrate := hashrate
    let chip_info : ChipData :=
      { position := 0
        temperature := chip_temperature
        voltage := board_voltage
        frequency := board_frequency
        tuned := none
        working := some true
        hashrate := board_hashrate }
    let board_data : BoardData :=
      { position := 0
        hashrate := board_hashrate
        expected_hashrate := expected_hashrate
        board_temperature := board_temperature
        intake_temperature := board_temperature
        outlet_temperature := board_temperature
        expected_chips := hw.chips
        working_chips := total_chips
        serial_number := none
        chips := [chip_info]
        voltage := board_voltage
        frequency := board_frequency
        tuned := none
        active := some true }
    [board_data]
  let pools :=
    let main_url := data.extract_nested_or Value.asString .Pools "stratumUrl" ""
    let main_port := data.extract_nested_or Value.asU64 .Pools "stratumPort" 0
    let accepted_share := data.extract_nested Value.asU64 .Pools "sharesAccepted"
    let rejected_share := data.extract_nested Value.asU64 .Pools "sharesRejected"
    let main_user := data.extract_nested Value.asString .Pools "stratumUser"
    let is_using_fallback := data.extract_nested_or Value.asBool .Pools
      "isUsingFallbackStratum" false
    let main_pool_url : PoolURL :=
      { scheme := PoolScheme.StratumV1
        host := main_url
        port := main_port % 65536
        pubkey := none }
    let main_pool_data : PoolData :=
      { position := some 0
        url := some main_pool_url
        accepted_shares := accepted_share
        rejected_shares := rejected_share
        active := some (!is_using_fallback)
        alive := none
        user := main_user }
    let fallback_url :=
      data.extract_nested_or Value.asString .Pools "fallbackStratumURL" ""
    let fallback_port :=
      data.extract_nested_or Value.asU64 .Pools "fallbackStratumPort" 0
    let fallback_user := data.extract_nested Value.asString .Pools
      "fallbackStratumUser"
    let fallback_pool_url : PoolURL :=
      { scheme := PoolScheme.StratumV1
        host := fallback_url
        port := fallback_port % 65536
        pubkey := none }
    let fallback_pool_data : PoolData :=
      { position := some 1
        url := some fallback_pool_url
        accepted_shares := accepted_share
        rejected_shares := rejected_share
        active := some is_using_fallback
        alive := none
        user := fallback_user }
    [main_pool_data, fallback_pool_data]
  { schema_version := schemaVersion
    timestamp := timestamp
    ip := ip
    mac := mac
    device_info := device_info
    serial_number := none
    hostname := hostname
    api_version := api_version
    firmware_version := firmware_version
    control_board_version := control_board_version
    expected_hashboards := hw.boards
    hashboards := hashboards
    hashrate := hashrate
    expected_chips := hw.chips
    total_chips := total_chips
    expected_fans := hw.fans
    fans := fans
    psu_fans := []
    average_temperature := average_temperature
    fluid_temperature := none
    wattage := wattage
    wattage_limit := none
    efficiency := efficiency
    light_flashing := none
    messages := []
    uptime := uptime
    is_mining := is_mining
    pools := pools }

end ESPMiner

/-! ## Helper lemmas about the collector -/

namespace DataCollector

theorem runCommands_eq_nil (api : ApiOutcome) (cmds : List String)
    (h : ∀ cmd v, api cmd ≠ Except.ok v) : runCommands api cmds = [] := by
  induction cmds with
  | nil => rfl
  | cons c rest ih =>
    simp only [runCommands, List.filterMap_cons] at ih ⊢
    cases hc : api c with
    | ok v => exact absurd hc (h c v)
    | error e => simpa using ih

theorem evalLoc_nil_cache (loc : DataLocation) : evalLoc [] loc = none := rfl

theorem extractFirst_nil_cache (locs : List DataLocation) :
    extractFirst [] locs = none := by
  induction locs with
  | nil => rfl
  | cons loc rest ih => simp [extractFirst, evalLoc_nil_cache, ih]

theorem collect_eq (locs : DataField → List DataLocation) (api : ApiOutcome)
    (fields : List DataField) :
    collect locs api fields =
      fields.filterMap fun f =>
        (extract_field locs (cacheOf locs api fields) f).map ((f, ·)) := by
  simp [collect, collectFrom, cacheOf]

theorem collect_eq_nil_of_api_fail (locs : DataField → List DataLocation)
    (api : ApiOutcome) (fields : List DataField)
    (h : ∀ cmd v, api cmd ≠ Except.ok v) : collect locs api fields = [] := by
  rw [collect_eq]
  have hc : cacheOf locs api fields = [] :=
    runCommands_eq_nil api _ h
  refine List.filterMap_eq_nil_iff.mpr ?_
  intro f _
  rw [hc, extract_field, extractFirst_nil_cache]
  rfl

theorem map_fst_runCommands_sublist (api : ApiOutcome) (cmds : List String) :
    ((runCommands api cmds).map Prod.fst).Sublist cmds := by
  induction cmds with
  | nil => simp [runCommands]
  | cons c rest ih =>
    simp only [runCommands, List.filterMap_cons] at ih ⊢
    cases api c with
    | ok v => simpa using List.Sublist.cons₂ c ih
    | error e => exact List.Sublist.cons c ih

theorem mem_runCommands (api : ApiOutcome) (cmds : List String)
    (cmd : String) (v : Value) :
    (cmd, v) ∈ runCommands api cmds ↔ cmd ∈ cmds ∧ api cmd = Except.ok v := by
  simp only [runCommands, List.mem_filterMap]
  constructor
  · rintro ⟨c, hc, hmatch⟩
    cases hac : api c with
    | ok w =>
      rw [hac] at hmatch
      simp only [Option.some.injEq, Prod.mk.injEq] at hmatch
      obtain ⟨rfl, rfl⟩ := hmatch
      exact ⟨hc, hac⟩
    | error e => rw [hac] at hmatch; simp at hmatch
  · rintro ⟨hc, hac⟩
    exact ⟨cmd, hc, by rw [hac]⟩

theorem lookup_eq_some_mem (l : List (String × Value)) (k : String) (v : Value)
    (h : l.lookup k = some v) : (k, v) ∈ l := by
  induction l with
  | nil => simp [List.lookup] at h
  | cons e rest ih =>
    obtain ⟨ek, ev⟩ := e
    by_cases hk : k = ek
    · subst hk
      rw [List.lookup_cons] at h
      simp only [beq_self_eq_true] at h
      simp only [Option.some.injEq] at h
      simp [h]
    · rw [List.lookup_cons, beq_false_of_ne hk] at h
      exact List.mem_cons_of_mem _ (ih h)

theorem lookup_runCommands_eq_none (api : ApiOutcome) (cmds : List String)
    (cmd : String) (h : ∀ v, api cmd ≠ Except.ok v) :
    (runCommands api cmds).lookup cmd = none := by
  cases hl : (runCommands api cmds).lookup cmd with
  | none => rfl
  | some v =>
    have hmem := lookup_eq_some_mem _ _ _ hl
    rw [mem_runCommands] at hmem
    exact absurd hmem.2 (h v)

theorem lookup_pairs {α β : Type} [BEq α] [LawfulBEq α] (ef : α → Option β) :
    ∀ (l : List α) (a : α),
    (l.filterMap fun g => (ef g).map ((g, ·))).lookup a =
      if a ∈ l then ef a else none := by
  intro l
  induction l with
  | nil => intro a; simp
  | cons g rest ih =>
    intro a
    by_cases hfg : a = g
    · subst hfg
      cases hg : ef a with
      | none =>
        simp only [List.filterMap_cons, hg, Option.map_none', ih]
        by_cases hf : a ∈ rest <;> simp [hf, hg]
      | some v =>
        simp only [List.filterMap_cons, hg, Option.map_some']
        rw [List.lookup_cons]
        simp
    · cases hg : ef g with
      | none =>
        simp only [List.filterMap_cons, hg, Option.map_none', ih]
        simp [hfg]
      | some v =>
        simp only [List.filterMap_cons, hg, Option.map_some']
        rw [List.lookup_cons, beq_false_of_ne hfg, ih]
        simp [hfg]

theorem lookup_collect (locs : DataField → List DataLocation)
    (api : ApiOutcome) (fields : List DataField) (f : DataField) :
    (collect locs api fields).lookup f =
      if f ∈ fields then extract_field locs (cacheOf locs api fields) f
      else none := by
  rw [collect_eq, lookup_pairs]

end DataCollector

/-! ## Helper lemmas about pointer resolution -/

theorem resolveTokens_append (v : Value) (a b : List String) :
    v.resolveTokens (a ++ b) =
      (v.resolveTokens a).bind (Value.resolveTokens · b) := by
  induction a generalizing v with
  | nil => simp [Value.resolveTokens]
  | cons t ts ih =>
    simp only [List.cons_append, Value.resolveTokens]
    cases v.pointerStep t with
    | none => simp
    | some w => simpa using ih w

/-! ## Concrete fixtures used by witnesses and counterexamples -/

/-- An API client for an unreachable device: every command fails. -/
def apiFailAll : ApiOutcome := fun _ => Except.error "unreachable"

/-- Fixed device identification used as intrinsic input. -/
def devInfo0 : DeviceInfo := ⟨"BitAxe", "Gamma", "Stock", "SHA256"⟩

/-- Fixed per-model hardware table used as intrinsic input. -/
def hw0 : MinerHardware := ⟨some 1, some 1, some 1⟩

/-- A MAC parser standing in for `MacAddr::from_str(..).ok()`. -/
def macNone : String → Option String := fun _ => none

/-- Snapshot produced against the unreachable device. -/
def mdFail : MinerData :=
  ESPMiner.get_data "10.0.0.2" "0.1.0" 1700000000 devInfo0 hw0 macNone apiFailAll

/-- A concrete `system/info` response used by witnesses. -/
def infoObj100 : Value :=
  .obj [("hashRate", .num 50), ("power", .num 100), ("hostname", .str "axe")]

/-- An API client that answers `system/info` with `infoObj100` and fails
every other command. -/
def api100 : ApiOutcome := fun cmd =>
  if cmd = SYSTEM_INFO_CMD then Except.ok infoObj100 else Except.error "no route"

/-- Snapshot produced against the `api100` device. -/
def md100 : MinerData :=
  ESPMiner.get_data "10.0.0.2" "0.1.0" 1700000000 devInfo0 hw0 macNone api100

/-- The two-candidate location table of the spec's end-to-end scenario:
field H (played by `Hashrate`) has locations
`[(cmdA, key x), (cmdB, key y)]`. -/
def locsH : DataField → List DataLocation
  | .Hashrate => [("cmdA", ⟨get_by_key, some "x"⟩), ("cmdB", ⟨get_by_key, some "y"⟩)]
  | _ => []

/-- The API of the scenario: `cmdA` fails, `cmdB` answers with a response
containing `y = 42`. -/
def apiAB : ApiOutcome := fun cmd =>
  if cmd = "cmdB" then Except.ok (.obj [("y", .num 42)]) else Except.error "down"

/-- A nested value used by the pointer-resolution witness. -/
def vNested : Value := .obj [("a", .arr [.num 1, .num 2])]

/-! ## Claims about the Collector Engine -/

theorem extractFirst_append_first (cache : List (String × Value)) :
    ∀ (pre : List DataLocation) (loc : DataLocation) (post : List DataLocation)
      (v : Value),
    (∀ l, l ∈ pre → DataCollector.evalLoc cache l = none) →
    DataCollector.evalLoc cache loc = some v →
    DataCollector.extractFirst cache (pre ++ loc :: post) = some v := by
  intro pre
  induction pre with
  | nil =>
    intro loc post v _ hloc
    simp [DataCollector.extractFirst, hloc]
  | cons p ps ih =>
    intro loc post v hpre hloc
    have hp : DataCollector.evalLoc cache p = none :=
      hpre p (List.mem_cons_self _ _)
    simp only [List.cons_append, DataCollector.extractFirst, hp]
    exact ih loc post v (fun l hl => hpre l (List.mem_cons_of_mem _ hl)) hloc

/-- Claim C3: for any requested field set, the deduplicated command list
that `collect` iterates (invoking the API client once per entry) has no
duplicates and contains exactly the union of the command identifiers
referenced by the fields' location tables; when the tables reference no
command, the list is empty and nothing is sent. -/
theorem claim_c3_command_set (locs : DataField → List DataLocation)
    (fields : List DataField) :
    (DataCollector.get_required_commands locs fields).Nodup
    ∧ (∀ cmd, cmd ∈ DataCollector.get_required_commands locs fields ↔
        ∃ f, f ∈ fields ∧ cmd ∈ (locs f).map Prod.fst)
    ∧ ((∀ f, f ∈ fields → locs f = []) →
        DataCollector.get_required_commands locs fields = []) := by
  refine ⟨List.nodup_dedup _, ?_, ?_⟩
  · intro cmd
    simp [DataCollector.get_required_commands, List.mem_dedup, List.mem_flatMap]
  · intro h
    rw [List.eq_nil_iff_forall_not_mem]
    intro cmd hcmd
    rw [DataCollector.get_required_commands, List.mem_dedup,
      List.mem_flatMap] at hcmd
    obtain ⟨f, hf, hmem⟩ := hcmd
    rw [h f hf] at hmem
    simp at hmem

/-- Witness for C3 at the ESPMiner backend: a field set whose location
tables reference no command leads to an empty command list. -/
theorem claim_c3_command_set_witness :
    DataCollector.get_required_commands ESPMiner.get_locations
      [DataField.SchemaVersion] = [] :=
  (claim_c3_command_set ESPMiner.get_locations [DataField.SchemaVersion]).2.2
    (by intro f hf; rw [List.mem_singleton] at hf; subst hf; rfl)

/-- Claim C4: the Collector walks a field's locations strictly in the
declared order and returns the first candidate that evaluates to a value,
skipping every earlier candidate that misses (not cached, or extractor
returned nothing). -/
theorem claim_c4_first_success (locs : DataField → List DataLocation)
    (cache : List (String × Value)) (f : DataField)
    (pre : List DataLocation) (loc : DataLocation) (post : List DataLocation)
    (v : Value) (hsplit : locs f = pre ++ loc :: post)
    (hpre : ∀ l, l ∈ pre → DataCollector.evalLoc cache l = none)
    (hloc : DataCollector.evalLoc cache loc = some v) :
    DataCollector.extract_field locs cache f = some v := by
  rw [DataCollector.extract_field, hsplit]
  exact extractFirst_append_first cache pre loc post v hpre hloc

/-- Witness for C4: the spec's end-to-end scenario — field H with
locations [(cmdA, key x), (cmdB, key y)], cmdA fails, cmdB answers with
y = 42 — extracts 42, and `collect` of that field yields 42. -/
theorem claim_c4_first_success_witness :
    DataCollector.extract_field locsH
      (DataCollector.cacheOf locsH apiAB [DataField.Hashrate])
      DataField.Hashrate = some (Value.num 42)
    ∧ (DataCollector.collect locsH apiAB [DataField.Hashrate]).lookup
        DataField.Hashrate = some (Value.num 42) := by
  constructor
  · exact claim_c4_first_success locsH
      (DataCollector.cacheOf locsH apiAB [DataField.Hashrate])
      DataField.Hashrate
      [("cmdA", ⟨get_by_key, some "x"⟩)] ("cmdB", ⟨get_by_key, some "y"⟩) []
      (Value.num 42) rfl
      (by intro l hl; rw [List.mem_singleton] at hl; subst hl; rfl)
      rfl
  · rfl

/-- Claim C5: a failed command leaves no cache entry (absence from the
cache is the only observable effect), the cache holds only genuine
responses of this call, and the result mapping holds exactly the
requested fields whose extraction succeeded — a field with no successful
candidate is absent, never inserted as null or empty. -/
theorem claim_c5_failure_policy (locs : DataField → List DataLocation)
    (api : ApiOutcome) (fields : List DataField) :
    (∀ cmd, (∀ v, api cmd ≠ Except.ok v) →
        (DataCollector.cacheOf locs api fields).lookup cmd = none)
    ∧ (∀ cmd v, (DataCollector.cacheOf locs api fields).lookup cmd = some v →
        api cmd = Except.ok v)
    ∧ (∀ f, (DataCollector.collect locs api fields).lookup f =
        if f ∈ fields
        then DataCollector.extract_field locs
          (DataCollector.cacheOf locs api fields) f
        else none) := by
  refine ⟨?_, ?_, ?_⟩
  · intro cmd h
    exact DataCollector.lookup_runCommands_eq_none api _ cmd h
  · intro cmd v h
    have hmem := DataCollector.lookup_eq_some_mem _ _ _ h
    exact ((DataCollector.mem_runCommands api _ cmd v).mp hmem).2
  · intro f
    exact DataCollector.lookup_collect locs api fields f

/-- Witness for C5: against the unreachable device, the failed
`system/info` command has no cache entry. -/
theorem claim_c5_failure_policy_witness :
    (DataCollector.cacheOf ESPMiner.get_locations apiFailAll
      allDataFields).lookup SYSTEM_INFO_CMD = none :=
  (claim_c5_failure_policy ESPMiner.get_locations apiFailAll allDataFields).1
    SYSTEM_INFO_CMD (fun _ h => Except.noConfusion h)

/-- Claim C7: one collection call starts from the empty cache created by
`new`, populates each command identifier at most once, and every cache
entry comes from this call's API outcome — nothing is carried over. -/
theorem claim_c7_cache_lifecycle (locs : DataField → List DataLocation)
    (api : ApiOutcome) (fields : List DataField) :
    DataCollector.collect locs api fields =
      (DataCollector.collectFrom locs api [] fields).1
    ∧ ((DataCollector.cacheOf locs api fields).map Prod.fst).Nodup
    ∧ (∀ cmd v, (cmd, v) ∈ DataCollector.cacheOf locs api fields →
        api cmd = Except.ok v) := by
  refine ⟨rfl, ?_, ?_⟩
  · exact (List.nodup_dedup _).sublist
      (DataCollector.map_fst_runCommands_sublist api _)
  · intro cmd v h
    exact ((DataCollector.mem_runCommands api _ cmd v).mp h).2

/-- Witness for C7: at the `api100` device the single cache entry traces
back to the API response for `system/info`. -/
theorem claim_c7_cache_lifecycle_witness :
    api100 SYSTEM_INFO_CMD = Except.ok infoObj100 := by
  refine (claim_c7_cache_lifecycle ESPMiner.get_locations api100
    allDataFields).2.2 SYSTEM_INFO_CMD infoObj100 ?_
  have e : DataCollector.cacheOf ESPMiner.get_locations api100 allDataFields
      = [(SYSTEM_INFO_CMD, infoObj100)] := rfl
  rw [e]
  exact List.mem_singleton.mpr rfl

/-- Claim C8: JSON-pointer lookup resolves the path's segments in order,
descending into keyed structures and indexed sequences: a pointer string
resolves through its token list, resolution distributes over
concatenation, fails as soon as one step fails, and continues from the
intermediate value when a step succeeds. -/
theorem claim_c8_pointer_resolution :
    (∀ (v : Value) (p : String), startsWithChar '/' p = true →
        get_by_pointer v (some p) = v.resolveTokens (pointerTokens p))
    ∧ (∀ (v : Value) (a b : List String),
        v.resolveTokens (a ++ b) =
          (v.resolveTokens a).bind (Value.resolveTokens · b))
    ∧ (∀ (v : Value) (tok : String) (rest : List String),
        v.pointerStep tok = none → v.resolveTokens (tok :: rest) = none)
    ∧ (∀ (v w : Value) (tok : String) (rest : List String),
        v.pointerStep tok = some w →
          v.resolveTokens (tok :: rest) = w.resolveTokens rest) := by
  refine ⟨?_, resolveTokens_append, ?_, ?_⟩
  · intro v p h
    have hne : p ≠ "" := by
      intro he
      subst he
      exact Bool.noConfusion h
    show v.pointer p = v.resolveTokens (pointerTokens p)
    rw [Value.pointer, if_neg hne, if_neg (not_not_intro h)]
  · intro v tok rest h
    rw [Value.resolveTokens, h]
    rfl
  · intro v w tok rest h
    rw [Value.resolveTokens, h]
    rfl

/-- Witness for C8 on a concrete nested value: a pointer that starts with
a slash resolves through its tokens, and a missing key fails at once. -/
theorem claim_c8_pointer_resolution_witness :
    get_by_pointer vNested (some "/a/1") =
      vNested.resolveTokens (pointerTokens "/a/1")
    ∧ Value.resolveTokens vNested (pointerTokens "/a/1") = some (Value.num 2)
    ∧ Value.resolveTokens vNested ["b"] = none :=
  ⟨claim_c8_pointer_resolution.1 vNested "/a/1" rfl, rfl,
   claim_c8_pointer_resolution.2.2.1 vNested "b" [] rfl⟩

/-! ## Projection equations for `ESPMiner.get_data`

Each equation names the exact extraction chain a snapshot field is built
from; all hold definitionally. -/

namespace ESPMiner

section

variable (ip sv : String) (ts : Nat) (di : DeviceInfo) (hw : MinerHardware)
  (mp : String → Option String) (api : ApiOutcome)

theorem mac_eq :
    (get_data ip sv ts di hw mp api).mac =
      ((List.lookup DataField.Mac
        (DataCollector.collect_all get_locations api)).bind
          Value.asString).bind mp := rfl

theorem hostname_eq :
    (get_data ip sv ts di hw mp api).hostname =
      (List.lookup DataField.Hostname
        (DataCollector.collect_all get_locations api)).bind
          Value.asString := rfl

theorem api_version_eq :
    (get_data ip sv ts di hw mp api).api_version =
      (List.lookup DataField.ApiVersion
        (DataCollector.collect_all get_locations api)).bind
          Value.asString := rfl

theorem firmware_version_eq :
    (get_data ip sv ts di hw mp api).firmware_version =
      (List.lookup DataField.FirmwareVersion
        (DataCollector.collect_all get_locations api)).bind
          Value.asString := rfl

theorem control_board_version_eq :
    (get_data ip sv ts di hw mp api).control_board_version =
      (List.lookup DataField.ControlBoardVersion
        (DataCollector.collect_all get_locations api)).bind
          Value.asString := rfl

theorem hashrate_eq :
    (get_data ip sv ts di hw mp api).hashrate =
      ((List.lookup DataField.Hashrate
        (DataCollector.collect_all get_locations api)).bind
          Value.asF64).map
        (fun f => HashRate.mk f HashRateUnit.GigaHash "SHA256") := rfl

theorem total_chips_eq :
    (get_data ip sv ts di hw mp api).total_chips =
      ((List.lookup DataField.TotalChips
        (DataCollector.collect_all get_locations api)).bind
          Value.asU64).map (fun u => u % 65536) := rfl

theorem wattage_eq :
    (get_data ip sv ts di hw mp api).wattage =
      ((List.lookup DataField.Wattage
        (DataCollector.collect_all get_locations api)).bind
          Value.asF64).map Power.from_watts := rfl

theorem average_temperature_eq :
    (get_data ip sv ts di hw mp api).average_temperature =
      ((List.lookup DataField.AverageTemperature
        (DataCollector.collect_all get_locations api)).bind
          Value.asF64).map Temperature.from_celsius := rfl

theorem uptime_eq :
    (get_data ip sv ts di hw mp api).uptime =
      ((List.lookup DataField.Uptime
        (DataCollector.collect_all get_locations api)).bind
          Value.asU64).map id := rfl

theorem fans_eq :
    (get_data ip sv ts di hw mp api).fans =
      (((List.lookup DataField.Fans
        (DataCollector.collect_all get_locations api)).bind
          Value.asF64).map
        (fun f => [FanData.mk 0 (AngularVelocity.from_rpm f)])).getD [] := rfl

theorem efficiency_eq :
    (get_data ip sv ts di hw mp api).efficiency =
      match (get_data ip sv ts di hw mp api).hashrate,
          (get_data ip sv ts di hw mp api).wattage with
      | some hr, some w => some (w.as_watts / (hr.value / 1000))
      | _, _ => none := rfl

theorem is_mining_eq :
    (get_data ip sv ts di hw mp api).is_mining =
      (get_data ip sv ts di hw mp api).hashrate.elim false
        (fun hr => decide (hr.value > 0)) := rfl

end

end ESPMiner

/-! ## Claims about the ESPMiner backend -/

/-- Claim C1 is false as stated: against a device where no extraction
succeeds (the collected mapping is empty), the snapshot still carries
populated fields — the board's active flag, its defaulted expected
hashrate, and constructed pool URLs — none of which traces to a
successful extraction. -/
theorem claim_c1_counterexample :
    DataCollector.collect_all ESPMiner.get_locations apiFailAll = []
    ∧ mdFail.hashboards.map (fun b => b.active) = [some true]
    ∧ mdFail.hashboards.map (fun b => b.expected_hashrate) =
        [some (HashRate.mk 0 HashRateUnit.GigaHash "SHA256")]
    ∧ mdFail.pools.map (fun p => p.url.isSome) = [true, true] :=
  ⟨rfl, rfl, rfl, rfl⟩

/-- Claim C1 (amended): every directly extracted top-level telemetry
field of the ESPMiner snapshot is left unset whenever its raw extraction
did not succeed — only the constructed hashboard, chip and pool
scaffolding carries constant or defaulted values. -/
theorem claim_c1_no_default_top_fields (ip sv : String) (ts : Nat)
    (di : DeviceInfo) (hw : MinerHardware) (mp : String → Option String)
    (api : ApiOutcome) (md : MinerData)
    (hmd : md = ESPMiner.get_data ip sv ts di hw mp api) :
    (List.lookup DataField.Mac
        (DataCollector.collect_all ESPMiner.get_locations api) = none →
      md.mac = none)
    ∧ (List.lookup DataField.Hostname
        (DataCollector.collect_all ESPMiner.get_locations api) = none →
      md.hostname = none)
    ∧ (List.lookup DataField.ApiVersion
        (DataCollector.collect_all ESPMiner.get_locations api) = none →
      md.api_version = none)
    ∧ (List.lookup DataField.FirmwareVersion
        (DataCollector.collect_all ESPMiner.get_locations api) = none →
      md.firmware_version = none)
    ∧ (List.lookup DataField.ControlBoardVersion
        (DataCollector.collect_all ESPMiner.get_locations api) = none →
      md.control_board_version = none)
    ∧ (List.lookup DataField.Hashrate
        (DataCollector.collect_all ESPMiner.get_locations api) = none →
      md.hashrate = none)
    ∧ (List.lookup DataField.TotalChips
        (DataCollector.collect_all ESPMiner.get_locations api) = none →
      md.total_chips = none)
    ∧ (List.lookup DataField.Wattage
        (DataCollector.collect_all ESPMiner.get_locations api) = none →
      md.wattage = none)
    ∧ (List.lookup DataField.AverageTemperature
        (DataCollector.collect_all ESPMiner.get_locations api) = none →
      md.average_temperature = none)
    ∧ (List.lookup DataField.Uptime
        (DataCollector.collect_all ESPMiner.get_locations api) = none →
      md.uptime = none)
    ∧ (List.lookup DataField.Hashrate
          (DataCollector.collect_all ESPMiner.get_locations api) = none ∨
        List.lookup DataField.Wattage
          (DataCollector.collect_all ESPMiner.get_locations api) = none →
      md.efficiency = none)
    ∧ (List.lookup DataField.Fans
        (DataCollector.collect_all ESPMiner.get_locations api) = none →
      md.fans = []) := by
  subst hmd
  refine ⟨?_, ?_, ?_, ?_, ?_, ?_, ?_, ?_, ?_, ?_, ?_, ?_⟩
  · intro h; rw [ESPMiner.mac_eq, h]; rfl
  · intro h; rw [ESPMiner.hostname_eq, h]; rfl
  · intro h; rw [ESPMiner.api_version_eq, h]; rfl
  · intro h; rw [ESPMiner.firmware_version_eq, h]; rfl
  · intro h; rw [ESPMiner.control_board_version_eq, h]; rfl
  · intro h; rw [ESPMiner.hashrate_eq, h]; rfl
  · intro h; rw [ESPMiner.total_chips_eq, h]; rfl
  · intro h; rw [ESPMiner.wattage_eq, h]; rfl
  · intro h; rw [ESPMiner.average_temperature_eq, h]; rfl
  · intro h; rw [ESPMiner.uptime_eq, h]; rfl
  · intro h
    rw [ESPMiner.efficiency_eq]
    rcases h with h | h
    · rw [ESPMiner.hashrate_eq, h]
      rfl
    · rw [ESPMiner.wattage_eq, h]
      rcases hl : List.lookup DataField.Hashrate
          (DataCollector.collect_all ESPMiner.get_locations api) with _ | v
      · rw [ESPMiner.hashrate_eq, hl]
        rfl
      · rw [ESPMiner.hashrate_eq, hl]
        cases v <;> rfl
  · intro h; rw [ESPMiner.fans_eq, h]; rfl

/-- Witness for the amended C1 at the unreachable device: the hostname
extraction failed, so the hostname field is unset. -/
theorem claim_c1_no_default_top_fields_witness : mdFail.hostname = none :=
  (claim_c1_no_default_top_fields "10.0.0.2" "0.1.0" 1700000000 devInfo0 hw0
    macNone apiFailAll mdFail rfl).2.1 rfl

/-- Claim C2 is false as stated: on total failure (empty cache), the
snapshot does not have all telemetry fields unset — it still carries one
hashboard, two pools, and hardware-table expectations. -/
theorem claim_c2_counterexample :
    DataCollector.cacheOf ESPMiner.get_locations apiFailAll allDataFields = []
    ∧ mdFail.hashboards.length = 1
    ∧ mdFail.pools.length = 2
    ∧ mdFail.expected_chips = some 1 :=
  ⟨rfl, rfl, rfl, rfl⟩

/-- Claim C2 (amended): `get_data` is total (it returns a snapshot for
every API outcome), and on total inability to reach the device every
directly extracted telemetry field is unset while the intrinsic fields
(schema version, timestamp, target address) are set — though the constant
board/pool scaffolding and hardware-table values are still emitted. -/
theorem claim_c2_total_failure (ip sv : String) (ts : Nat)
    (di : DeviceInfo) (hw : MinerHardware) (mp : String → Option String)
    (api : ApiOutcome) (md : MinerData)
    (hmd : md = ESPMiner.get_data ip sv ts di hw mp api)
    (hapi : ∀ cmd v, api cmd ≠ Except.ok v) :
    md.schema_version = sv ∧ md.timestamp = ts ∧ md.ip = ip
    ∧ md.mac = none ∧ md.hostname = none ∧ md.api_version = none
    ∧ md.firmware_version = none ∧ md.control_board_version = none
    ∧ md.hashrate = none ∧ md.total_chips = none ∧ md.wattage = none
    ∧ md.average_temperature = none ∧ md.efficiency = none
    ∧ md.uptime = none ∧ md.fans = [] ∧ md.is_mining = false
    ∧ md.serial_number = none ∧ md.wattage_limit = none
    ∧ md.fluid_temperature = none ∧ md.light_flashing = none
    ∧ md.messages = [] ∧ md.psu_fans = []
    ∧ md.hashboards.length = 1 ∧ md.pools.length = 2 := by
  subst hmd
  have hnil : DataCollector.collect_all ESPMiner.get_locations api = [] :=
    DataCollector.collect_eq_nil_of_api_fail ESPMiner.get_locations api
      allDataFields hapi
  refine ⟨rfl, rfl, rfl, ?_, ?_, ?_, ?_, ?_, ?_, ?_, ?_, ?_, ?_, ?_, ?_, ?_,
    rfl, rfl, rfl, rfl, rfl, rfl, rfl, rfl⟩
  · rw [ESPMiner.mac_eq, hnil]; rfl
  · rw [ESPMiner.hostname_eq, hnil]; rfl
  · rw [ESPMiner.api_version_eq, hnil]; rfl
  · rw [ESPMiner.firmware_version_eq, hnil]; rfl
  · rw [ESPMiner.control_board_version_eq, hnil]; rfl
  · rw [ESPMiner.hashrate_eq, hnil]; rfl
  · rw [ESPMiner.total_chips_eq, hnil]; rfl
  · rw [ESPMiner.wattage_eq, hnil]; rfl
  · rw [ESPMiner.average_temperature_eq, hnil]; rfl
  · rw [ESPMiner.efficiency_eq, ESPMiner.hashrate_eq, hnil]; rfl
  · rw [ESPMiner.uptime_eq, hnil]; rfl
  · rw [ESPMiner.fans_eq, hnil]; rfl
  · rw [ESPMiner.is_mining_eq, ESPMiner.hashrate_eq, hnil]; rfl

/-- Witness for the amended C2 at a concrete unreachable device. -/
theorem claim_c2_total_failure_witness :
    mdFail.schema_version = "0.1.0" ∧ mdFail.timestamp = 1700000000
    ∧ mdFail.ip = "10.0.0.2"
    ∧ mdFail.mac = none ∧ mdFail.hostname = none ∧ mdFail.api_version = none
    ∧ mdFail.firmware_version = none ∧ mdFail.control_board_version = none
    ∧ mdFail.hashrate = none ∧ mdFail.total_chips = none
    ∧ mdFail.wattage = none ∧ mdFail.average_temperature = none
    ∧ mdFail.efficiency = none ∧ mdFail.uptime = none ∧ mdFail.fans = []
    ∧ mdFail.is_mining = false ∧ mdFail.serial_number = none
    ∧ mdFail.wattage_limit = none ∧ mdFail.fluid_temperature = none
    ∧ mdFail.light_flashing = none ∧ mdFail.messages = []
    ∧ mdFail.psu_fans = []
    ∧ mdFail.hashboards.length = 1 ∧ mdFail.pools.length = 2 :=
  claim_c2_total_failure "10.0.0.2" "0.1.0" 1700000000 devInfo0 hw0 macNone
    apiFailAll mdFail rfl (fun _ _ h => Except.noConfusion h)

/-- Claim C6: the efficiency field is present exactly when both the
hashrate and the wattage are present, and then equals the power in watts
divided by the hashrate converted from gigahash to terahash per second;
an absent input leaves efficiency absent. -/
theorem claim_c6_efficiency (ip sv : String) (ts : Nat)
    (di : DeviceInfo) (hw : MinerHardware) (mp : String → Option String)
    (api : ApiOutcome) (md : MinerData)
    (hmd : md = ESPMiner.get_data ip sv ts di hw mp api) :
    (md.efficiency.isSome ↔ (md.hashrate.isSome ∧ md.wattage.isSome))
    ∧ (∀ hr w, md.hashrate = some hr → md.wattage = some w →
        md.efficiency = some (w.as_watts / (hr.value / 1000))) := by
  subst hmd
  constructor
  · rw [ESPMiner.efficiency_eq]
    rcases h1 : (ESPMiner.get_data ip sv ts di hw mp api).hashrate with _ | hr
      <;> rcases h2 : (ESPMiner.get_data ip sv ts di hw mp api).wattage
        with _ | w <;> simp
  · intro hr w h1 h2
    rw [ESPMiner.efficiency_eq, h1, h2]

/-- Witness for C6: wattage 100 W and hashrate 50 GH/s give an
efficiency of exactly 2000 W per TH/s. -/
theorem claim_c6_efficiency_witness : md100.efficiency = some 2000 := by
  have h := (claim_c6_efficiency "10.0.0.2" "0.1.0" 1700000000 devInfo0 hw0
    macNone api100 md100 rfl).2
    (HashRate.mk 50 HashRateUnit.GigaHash "SHA256") (Power.from_watts 100)
    rfl rfl
  rw [h]
  simp only [Power.as_watts, Power.from_watts]
  norm_num

/-- Claim C9: the snapshot's `is_mining` flag is a plain boolean — true
exactly when the hashrate extraction succeeded with a strictly positive
numeric value, and false whenever the hashrate is unavailable. -/
theorem claim_c9_is_mining (ip sv : String) (ts : Nat)
    (di : DeviceInfo) (hw : MinerHardware) (mp : String → Option String)
    (api : ApiOutcome) (md : MinerData)
    (hmd : md = ESPMiner.get_data ip sv ts di hw mp api) :
    (md.is_mining = true ↔ ∃ q : ℚ,
        (List.lookup DataField.Hashrate
          (DataCollector.collect_all ESPMiner.get_locations api)).bind
            Value.asF64 = some q ∧ 0 < q)
    ∧ ((List.lookup DataField.Hashrate
          (DataCollector.collect_all ESPMiner.get_locations api)).bind
            Value.asF64 = none → md.is_mining = false) := by
  subst hmd
  constructor
  · rw [ESPMiner.is_mining_eq, ESPMiner.hashrate_eq]
    rcases h : (List.lookup DataField.Hashrate
        (DataCollector.collect_all ESPMiner.get_locations api)).bind
          Value.asF64 with _ | q
    · simp [h]
    · simp [h]
  · intro h
    rw [ESPMiner.is_mining_eq, ESPMiner.hashrate_eq, h]
    rfl

/-- Witness for C9: the device reporting a hashrate of 50 GH/s is
mining. -/
theorem claim_c9_is_mining_witness : md100.is_mining = true :=
  (claim_c9_is_mining "10.0.0.2" "0.1.0" 1700000000 devInfo0 hw0 macNone
    api100 md100 rfl).1.mpr ⟨50, rfl, by norm_num⟩

/-- Claim C10: for every API outcome the ESPMiner snapshot has exactly
one hashboard whose active flag is set true and which owns exactly one
chip with working set true, and exactly two pools (positions 0 and 1)
each carrying a constructed URL. -/
theorem claim_c10_constant_scaffold (ip sv : String) (ts : Nat)
    (di : DeviceInfo) (hw : MinerHardware) (mp : String → Option String)
    (api : ApiOutcome) (md : MinerData)
    (hmd : md = ESPMiner.get_data ip sv ts di hw mp api) :
    md.hashboards.length = 1
    ∧ md.hashboards.map (fun b => b.active) = [some true]
    ∧ md.hashboards.map (fun b => b.chips.length) = [1]
    ∧ md.hashboards.map (fun b => b.chips.map (fun c => c.working)) =
        [[some true]]
    ∧ md.pools.length = 2
    ∧ md.pools.map (fun p => p.position) = [some 0, some 1]
    ∧ md.pools.map (fun p => p.url.isSome) = [true, true] := by
  subst hmd
  exact ⟨rfl, rfl, rfl, rfl, rfl, rfl, rfl⟩

/-- Witness for C10 at the unreachable device: even with every command
failing, the constant scaffolding is present. -/
theorem claim_c10_constant_scaffold_witness :
    mdFail.hashboards.length = 1
    ∧ mdFail.hashboards.map (fun b => b.active) = [some true]
    ∧ mdFail.hashboards.map (fun b => b.chips.length) = [1]
    ∧ mdFail.hashboards.map (fun b => b.chips.map (fun c => c.working)) =
        [[some true]]
    ∧ mdFail.pools.length = 2
    ∧ mdFail.pools.map (fun p => p.position) = [some 0, some 1]
    ∧ mdFail.pools.map (fun p => p.url.isSome) = [true, true] :=
  claim_c10_constant_scaffold "10.0.0.2" "0.1.0" 1700000000 devInfo0 hw0
    macNone apiFailAll mdFail rfl
